import Mathlib

/-!
Verification of the `personalfinance` remote data client and dashboard
aggregation logic (source: `src/lib/api.ts`, `src/pages/Index.tsx`,
`src/components/TopCategoryChart.tsx`).

The TypeScript client is shallowly embedded: JSON bodies are a `Json`
inductive, JavaScript truthiness is `jsTruthy`, the runtime error values the
client can throw/reject with are `JsError`, and each network operation is a
function from a network-outcome event (`HttpEvent` / `DashboardEvent`) to
`Except JsError _`, mirroring a settled promise.
-/

/-- A JSON value, as produced by `response.json()`. Numbers are modelled as
rationals (the concrete bodies in scope use exactly representable values). -/
inductive Json where
  | null
  | bool (b : Bool)
  | num (q : Rat)
  | str (s : String)
  | arr (elems : List Json)
  | obj (fields : List (String × Json))

/-- Property access `j.key` on an object: first binding wins (the decoded
bodies in scope have no duplicate keys). Access on a non-object yields
`none` (JavaScript `undefined`). -/
def jsonLookup (j : Json) (key : String) : Option Json :=
  match j with
  | .obj fields => fields.lookup key
  | _ => none

/-- Whether a JSON value is an object. -/
def Json.isObj : Json → Bool
  | .obj _ => true
  | _ => false

/-- JavaScript truthiness of a JSON value: `null`, `false`, `0` and `""` are
falsy; every array and object is truthy. -/
def jsTruthy : Json → Bool
  | .null => false
  | .bool b => b
  | .num q => if q = 0 then false else true
  | .str s => if s = "" then false else true
  | .arr _ => true
  | .obj _ => true

/-- The runtime error values the client code can reject with:
`abortError` (the fetch was aborted by `controller.abort()`),
`error msg` (a `throw new Error(msg)` in the client),
`syntaxError` (`response.json()` failed to parse the body),
`typeError` (`fetch` itself failed at the transport level). -/
inductive JsError where
  | abortError
  | error (msg : String)
  | syntaxError
  | typeError
deriving DecidableEq

/-- Outcome of an HTTP exchange once it settles: a transport failure, or a
response with a status and a body (`none` when the body is not valid JSON). -/
inductive HttpEvent where
  | networkError
  | response (status : Nat) (body : Option Json)

/-- Models `Response.ok`: true exactly for statuses 200–299. -/
def responseOk (status : Nat) : Bool :=
  decide (200 ≤ status) && decide (status ≤ 299)

/-- Outcome of the dashboard fetch, which alone runs under an
`AbortController`: either the 5 s timer fired first and aborted the request,
or the exchange completed. -/
inductive DashboardEvent where
  | timeout
  | completed (e : HttpEvent)

/-- The timer passed to `setTimeout(() => controller.abort(), 5000)`. -/
def dashboardTimeoutMs : Nat := 5000

/-- Whether `controller.abort()` fires for a given dashboard outcome: the
timer calls it exactly when it expires before the fetch settles
(`clearTimeout` cancels it on every other path). -/
def dashboardAborted : DashboardEvent → Bool
  | .timeout => true
  | .completed _ => false

/-- The unwrap step of `fetchDashboard`: `return json.dashboard || json`. -/
def unwrapDashboard (j : Json) : Json :=
  match jsonLookup j "dashboard" with
  | some v => if jsTruthy v then v else j
  | none => j

/-- The function `fetchDashboard`: on abort the promise rejects with the `AbortError`;
on transport failure with a `TypeError`; on a non-ok status the client throws
`new Error('Failed to fetch dashboard data')`; otherwise the body is parsed
(`syntaxError` if invalid JSON) and unwrapped. -/
def fetchDashboard : DashboardEvent → Except JsError Json
  | .timeout => .error .abortError
  | .completed .networkError => .error .typeError
  | .completed (.response status body) =>
    if responseOk status then
      match body with
      | some j => .ok (unwrapDashboard j)
      | none => .error .syntaxError
    else .error (.error "Failed to fetch dashboard data")

/-- One `searchParams.set(key, value)` guarded by `if (params?.x)`: the pair
is appended exactly when the filter is present and truthy (non-empty). -/
def setIfTruthy (key : String) (v : Option String) (ps : List (String × String)) :
    List (String × String) :=
  match v with
  | some s => if s = "" then ps else ps ++ [(key, s)]
  | none => ps

/-- The query parameters built by `fetchExpenses` from the optional
`year`, `month`, `category` filters, in the order the code sets them. -/
def expensesSearchParams (year month category : Option String) :
    List (String × String) :=
  setIfTruthy "category" category
    (setIfTruthy "month" month
      (setIfTruthy "year" year []))

/-- Models `searchParams.toString()` rendered as `k=v` pairs joined by `&`
(percent-escaping of reserved characters is not modelled; the claims are
stated at the level of the parameter list). -/
def encodeQuery (ps : List (String × String)) : String :=
  String.intercalate "&" (ps.map (fun p => p.1 ++ "=" ++ p.2))

/-- The URL `fetchExpenses` requests: the bare path when no filter
survived, else path, `?`, and the encoded parameters. -/
def fetchExpensesUrl (year month category : Option String) : String :=
  let ps := expensesSearchParams year month category
  if ps.isEmpty then "/api/expenses" else "/api/expenses?" ++ encodeQuery ps

/-- The unwrap step of `fetchExpenses`: `return json.expenses || []`. -/
def unwrapExpenses (j : Json) : Json :=
  match jsonLookup j "expenses" with
  | some v => if jsTruthy v then v else .arr []
  | none => .arr []

/-- The function `fetchExpenses`: transport failure rejects with a `TypeError`; a non-ok
status throws `new Error('Failed to fetch expenses')`; otherwise the JSON
body is unwrapped (`json.expenses || []`). -/
def fetchExpenses (year month category : Option String) :
    HttpEvent → Except JsError Json
  | .networkError => .error .typeError
  | .response status body =>
    if responseOk status then
      match body with
      | some j => .ok (unwrapExpenses j)
      | none => .error .syntaxError
    else .error (.error "Failed to fetch expenses")

/-- The default-parameter semantics of `syncExpenses(daysBack: number = 30)`:
an omitted argument becomes 30. -/
def syncDaysBack (daysBack : Option Rat) : Rat := daysBack.getD 30

/-- The POST body `JSON.stringify({ days_back: daysBack })` as a JSON value. -/
def syncRequestBody (daysBack : Rat) : Json :=
  .obj [("days_back", .num daysBack)]

/-- The function `syncExpenses`: non-ok status throws `new Error('Failed to sync
expenses')`; on success the parsed body is returned verbatim
(`return response.json()`). -/
def syncExpenses (daysBack : Rat) : HttpEvent → Except JsError Json
  | .networkError => .error .typeError
  | .response status body =>
    if responseOk status then
      match body with
      | some j => .ok j
      | none => .error .syntaxError
    else .error (.error "Failed to sync expenses")

/-- The value `fetchAuthStatus` resolves with: `authenticated` is the raw
`json.authenticated` field (`none` when absent, i.e. `undefined`), `user` is
`json.user || null`. -/
structure AuthStatus where
  authenticated : Option Json
  user : Json

/-- The object literal `{ authenticated: json.authenticated, user: json.user || null }`. -/
def authStatusOf (j : Json) : AuthStatus :=
  { authenticated := jsonLookup j "authenticated"
    user := match jsonLookup j "user" with
            | some u => if jsTruthy u then u else .null
            | none => .null }

/-- The function `fetchAuthStatus`: non-ok status throws `new Error('Failed to fetch auth
status')`; on success the body is projected into an `AuthStatus`. -/
def fetchAuthStatus : HttpEvent → Except JsError AuthStatus
  | .networkError => .error .typeError
  | .response status body =>
    if responseOk status then
      match body with
      | some j => .ok (authStatusOf j)
      | none => .error .syntaxError
    else .error (.error "Failed to fetch auth status")

/-- A `CategoryData` aggregate as decoded from the API. -/
structure CategoryData where
  category : String
  total : Rat
  count : Nat

/-- A `MonthlyData` aggregate (`month` is a `YYYY-MM` key). -/
structure MonthlyData where
  month : String
  total : Rat
  count : Nat

/-- From `TopCategoryChart`: `data.reduce((sum, c) => sum + c.total, 0)`. -/
def chartTotal (data : List CategoryData) : Rat :=
  data.foldl (fun sum c => sum + c.total) 0

/-- The donut-segment percentages of `TopCategoryChart`:
`total > 0 ? (c.total / total) * 100 : 0` over the first eight categories. -/
def segmentPcts (data : List CategoryData) : List Rat :=
  (data.take 8).map (fun c =>
    if chartTotal data > 0 then c.total / chartTotal data * 100 else 0)

/-- Models `Number.prototype.toFixed(1)` for the nonnegative exact values in scope:
round to the nearest tenth (ties up) and print one fraction digit. -/
def toFixed1 (q : Rat) : String :=
  let n : Int := round (q * 10)
  toString (n / 10) ++ "." ++ toString (n % 10)

/-- The legend percentages of `TopCategoryChart`:
`total > 0 ? ((c.total / total) * 100).toFixed(1) : "0"`. -/
def legendPcts (data : List CategoryData) : List String :=
  (data.take 8).map (fun c =>
    if chartTotal data > 0 then toFixed1 (c.total / chartTotal data * 100) else "0")

/-- From `Index`: the monthly list filtered by the selected year (`""` = all years;
otherwise `data.monthly.filter(m => m.month.startsWith(selectedYear))`). -/
def filteredMonthly (monthly : List MonthlyData) (selectedYear : String) :
    List MonthlyData :=
  if selectedYear = "" then monthly
  else monthly.filter (fun m => m.month.startsWith selectedYear)

/-- From `Index`: `avgMonthly = filteredMonthly.length ? reduce(...) / length : 0`. -/
def avgMonthly (fm : List MonthlyData) : Rat :=
  if fm.length ≠ 0 then
    (fm.foldl (fun sum m => sum + m.total) 0) / (fm.length : Rat)
  else 0

/-! ## Helper lemmas -/

/-- Every JSON object is truthy. -/
theorem jsTruthy_of_isObj (j : Json) (h : j.isObj = true) : jsTruthy j = true := by
  cases j <;> simp_all [Json.isObj, jsTruthy]

/-- Membership in the result of one guarded `searchParams.set`. -/
theorem mem_setIfTruthy (key k v : String) (ov : Option String)
    (ps : List (String × String)) :
    (k, v) ∈ setIfTruthy key ov ps ↔
      (k, v) ∈ ps ∨ (k = key ∧ ov = some v ∧ v ≠ "") := by
  cases ov with
  | none => simp [setIfTruthy]
  | some s =>
    by_cases hs : s = ""
    · subst hs
      simp only [setIfTruthy, if_pos rfl]
      constructor
      · exact Or.inl
      · rintro (h | ⟨-, hsv, hv⟩)
        · exact h
        · exact absurd (Option.some.inj hsv).symm hv
    · simp only [setIfTruthy, if_neg hs, List.mem_append, List.mem_singleton,
        Prod.mk.injEq, Option.some.injEq]
      constructor
      · rintro (h | ⟨hk, hv⟩)
        · exact Or.inl h
        · exact Or.inr ⟨hk, hv.symm, hv ▸ hs⟩
      · rintro (h | ⟨hk, hv, -⟩)
        · exact Or.inl h
        · exact Or.inr ⟨hk, hv.symm⟩

/-! ## Claims -/

/-- C1: a dashboard body wrapping the snapshot under `dashboard` is unwrapped
to the inner object, a bare snapshot object (one with no `dashboard` field)
is returned unchanged, and on both shapes applying the unwrap step twice
equals applying it once. -/
theorem unwrapDashboard_unwraps_and_idempotent (j s : Json) :
    (jsonLookup j "dashboard" = some s → s.isObj = true →
        jsonLookup s "dashboard" = none →
        unwrapDashboard j = s ∧
        unwrapDashboard (unwrapDashboard j) = unwrapDashboard j) ∧
    (j.isObj = true → jsonLookup j "dashboard" = none →
        unwrapDashboard j = j ∧
        unwrapDashboard (unwrapDashboard j) = unwrapDashboard j) := by
  constructor
  · intro hl hobj hbare
    have ht : jsTruthy s = true := jsTruthy_of_isObj s hobj
    have h1 : unwrapDashboard j = s := by
      simp [unwrapDashboard, hl, ht]
    refine ⟨h1, ?_⟩
    rw [h1]
    simp [unwrapDashboard, hbare]
  · intro _ hnone
    have h1 : unwrapDashboard j = j := by
      simp [unwrapDashboard, hnone]
    exact ⟨h1, by rw [h1, h1]⟩

/-- Witness for C1 on a concretely wrapped snapshot. -/
theorem unwrapDashboard_unwraps_and_idempotent_witness :
    unwrapDashboard
        (Json.obj [("dashboard", Json.obj [("total_expenses", Json.num 0)])]) =
      Json.obj [("total_expenses", Json.num 0)] :=
  ((unwrapDashboard_unwraps_and_idempotent
      (Json.obj [("dashboard", Json.obj [("total_expenses", Json.num 0)])])
      (Json.obj [("total_expenses", Json.num 0)])).1 rfl rfl rfl).1

/-- C2: a pair occurs among the query parameters built by `fetchExpenses`
exactly when it is one of the three filters, supplied with that value and
non-empty; absent or empty filters contribute no parameter. -/
theorem expensesSearchParams_exact (year month category : Option String)
    (k v : String) :
    (k, v) ∈ expensesSearchParams year month category ↔
      ((k = "year" ∧ year = some v ∧ v ≠ "") ∨
       (k = "month" ∧ month = some v ∧ v ≠ "") ∨
       (k = "category" ∧ category = some v ∧ v ≠ "")) := by
  simp only [expensesSearchParams, mem_setIfTruthy, List.not_mem_nil, false_or]
  tauto

/-- Witness for C2: a present year filter appears, alongside an empty month
filter that does not. -/
theorem expensesSearchParams_exact_witness :
    ("year", "2024") ∈ expensesSearchParams (some "2024") (some "") none :=
  (expensesSearchParams_exact (some "2024") (some "") none "year" "2024").mpr
    (Or.inl ⟨rfl, rfl, by decide⟩)

/-- C3 counterexample: the failure produced for a non-success status does not
carry the status — a 404 and a 500 dashboard response yield the very same
error value, a generic `Error` with a fixed message. -/
theorem fetchDashboard_error_carries_no_status :
    fetchDashboard (.completed (.response 404 none)) =
        fetchDashboard (.completed (.response 500 none)) ∧
    fetchDashboard (.completed (.response 404 none)) =
        .error (.error "Failed to fetch dashboard data") :=
  ⟨rfl, rfl⟩

/-- C3 amended: on a non-success status each operation fails with a thrown
generic `Error` carrying a fixed, per-operation message (no status); that
failure is distinguishable by the caller from an abort (timeout), parse
(decode) or transport (network) failure, which are different error kinds. -/
theorem nonSuccess_fixed_message_error (s : Nat) (b : Option Json)
    (year month category : Option String) (d : Rat)
    (h : responseOk s = false) :
    fetchDashboard (.completed (.response s b)) =
        .error (.error "Failed to fetch dashboard data") ∧
    fetchExpenses year month category (.response s b) =
        .error (.error "Failed to fetch expenses") ∧
    syncExpenses d (.response s b) =
        .error (.error "Failed to sync expenses") ∧
    fetchAuthStatus (.response s b) =
        .error (.error "Failed to fetch auth status") ∧
    (∀ msg : String,
      JsError.error msg ≠ JsError.abortError ∧
      JsError.error msg ≠ JsError.syntaxError ∧
      JsError.error msg ≠ JsError.typeError) := by
  refine ⟨?_, ?_, ?_, ?_, ?_⟩
  · simp [fetchDashboard, h]
  · simp [fetchExpenses, h]
  · simp [syncExpenses, h]
  · simp [fetchAuthStatus, h]
  · intro msg
    exact ⟨by simp, by simp, by simp⟩

/-- Witness for the amended C3 at status 500. -/
theorem nonSuccess_fixed_message_error_witness :
    responseOk 500 = false ∧
    fetchDashboard (.completed (.response 500 none)) =
      .error (.error "Failed to fetch dashboard data") :=
  ⟨by decide,
   (nonSuccess_fixed_message_error 500 none none none none 30 (by decide)).1⟩

/-- C4: the dashboard fetch runs under a 5000 ms timer; when the timer fires
before a response arrives the in-flight request is aborted and the operation
fails with the abort error — the one error kind produced only on the timeout
path — rather than resolving. -/
theorem fetchDashboard_timeout_aborts :
    dashboardTimeoutMs = 5000 ∧
    dashboardAborted .timeout = true ∧
    fetchDashboard .timeout = .error .abortError :=
  ⟨rfl, rfl, rfl⟩

/-- C5: a successful expenses response whose JSON body has no `expenses`
field yields the empty list, not a failure. -/
theorem fetchExpenses_missing_field_empty (year month category : Option String)
    (s : Nat) (j : Json)
    (hok : responseOk s = true) (hmiss : jsonLookup j "expenses" = none) :
    fetchExpenses year month category (.response s (some j)) =
      .ok (.arr []) := by
  simp [fetchExpenses, hok, unwrapExpenses, hmiss]

/-- Witness for C5 with a body carrying only `count` and `success`. -/
theorem fetchExpenses_missing_field_empty_witness :
    responseOk 200 = true ∧
    fetchExpenses none none none
        (.response 200 (some (Json.obj
          [("count", Json.num 0), ("success", Json.bool true)]))) =
      .ok (.arr []) :=
  ⟨by decide,
   fetchExpenses_missing_field_empty none none none 200
     (Json.obj [("count", Json.num 0), ("success", Json.bool true)])
     (by decide) rfl⟩

/-- C6: an omitted lookback argument defaults to 30; with `days_back = 30`
the POST body is the JSON object `{"days_back": 30}`; and on a successful
response the parsed body — hence its `new_expenses` count — is returned
verbatim. -/
theorem syncExpenses_default_body_verbatim (s : Nat) (j : Json)
    (hok : responseOk s = true) :
    syncDaysBack none = 30 ∧
    syncRequestBody (syncDaysBack none) = .obj [("days_back", .num 30)] ∧
    syncExpenses 30 (.response s (some j)) = .ok j ∧
    (∀ r, syncExpenses 30 (.response s (some j)) = .ok r →
        jsonLookup r "new_expenses" = jsonLookup j "new_expenses") := by
  refine ⟨rfl, rfl, ?_, ?_⟩
  · simp [syncExpenses, hok]
  · intro r hr
    simp only [syncExpenses, hok, if_pos, Except.ok.injEq] at hr
    rw [← hr]

/-- Witness for C6 at status 200 with a concrete sync response. -/
theorem syncExpenses_default_body_verbatim_witness :
    responseOk 200 = true ∧
    syncExpenses 30 (.response 200 (some (Json.obj
        [("message", Json.str "Synced"), ("new_expenses", Json.num 4)]))) =
      .ok (Json.obj
        [("message", Json.str "Synced"), ("new_expenses", Json.num 4)]) :=
  ⟨by decide,
   (syncExpenses_default_body_verbatim 200
     (Json.obj [("message", Json.str "Synced"), ("new_expenses", Json.num 4)])
     (by decide)).2.2.1⟩

/-- C7: every successful auth-status response decodes: the result carries the
raw `authenticated` field; a present (truthy) `user` is returned as-is; an
absent `user` becomes the explicit `null` — never a failure. -/
theorem fetchAuthStatus_user_handling (s : Nat) (j u : Json)
    (hok : responseOk s = true) :
    fetchAuthStatus (.response s (some j)) = .ok (authStatusOf j) ∧
    (authStatusOf j).authenticated = jsonLookup j "authenticated" ∧
    (jsonLookup j "user" = some u → jsTruthy u = true →
        (authStatusOf j).user = u) ∧
    (jsonLookup j "user" = none → (authStatusOf j).user = .null) := by
  refine ⟨by simp [fetchAuthStatus, hok], rfl, ?_, ?_⟩
  · intro hu ht
    simp [authStatusOf, hu, ht]
  · intro hu
    simp [authStatusOf, hu]

/-- Witness for C7 on a body with no `user` field. -/
theorem fetchAuthStatus_user_handling_witness :
    responseOk 200 = true ∧
    (authStatusOf (Json.obj [("authenticated", Json.bool false)])).user =
      Json.null :=
  ⟨by decide,
   (fetchAuthStatus_user_handling 200
     (Json.obj [("authenticated", Json.bool false)]) Json.null
     (by decide)).2.2.2 rfl⟩

/-- C8: for category totals `[500, 300, 200]` the donut-segment percentages
are `[50, 30, 20]` and the legend shows `["50.0", "30.0", "20.0"]` (one
fraction digit). -/
theorem topCategoryChart_example_percentages :
    segmentPcts
        [⟨"Food", 500, 5⟩, ⟨"Travel", 300, 3⟩, ⟨"Rent", 200, 2⟩] =
      [50, 30, 20] ∧
    legendPcts
        [⟨"Food", 500, 5⟩, ⟨"Travel", 300, 3⟩, ⟨"Rent", 200, 2⟩] =
      ["50.0", "30.0", "20.0"] := by
  have ht :
      chartTotal [⟨"Food", 500, 5⟩, ⟨"Travel", 300, 3⟩, ⟨"Rent", 200, 2⟩] =
        1000 := by
    simp [chartTotal]; norm_num
  constructor
  · simp [segmentPcts, ht]
    norm_num
  · simp [legendPcts, ht, toFixed1]
    norm_num [round_eq]
    refine ⟨?_, ?_, ?_⟩ <;> decide

/-- C9: local ratios are guarded against a zero denominator — with a zero
grand total every donut-segment percentage is `0` and every legend
percentage is the string `"0"`, and with an empty filtered monthly list the
monthly average is `0`. -/
theorem zero_denominator_guards (data : List CategoryData)
    (fm : List MonthlyData)
    (h0 : chartTotal data = 0) (hfm : fm = []) :
    (∀ p ∈ segmentPcts data, p = 0) ∧
    (∀ p ∈ legendPcts data, p = "0") ∧
    avgMonthly fm = 0 := by
  refine ⟨?_, ?_, ?_⟩
  · intro p hp
    simp [segmentPcts, h0] at hp
    exact hp.2
  · intro p hp
    simp [legendPcts, h0] at hp
    exact hp.2
  · subst hfm
    simp [avgMonthly]

/-- Witness for C9 on a single zero-total category and an empty month list. -/
theorem zero_denominator_guards_witness :
    chartTotal [⟨"Food", 0, 0⟩] = 0 ∧
    avgMonthly [] = 0 :=
  ⟨by simp [chartTotal],
   (zero_denominator_guards [⟨"Food", 0, 0⟩] [] (by simp [chartTotal]) rfl).2.2⟩

/-- C10: the envelope fallback tests truthiness, not presence — a wrapper
field holding a falsy value (`null`, `false`, `0`, `""`) is treated exactly
like an absent field: `fetchExpenses` yields the empty list and
`fetchDashboard` yields the whole body. -/
theorem envelope_falsy_fallback (je jd v w : Json) (s : Nat)
    (hok : responseOk s = true)
    (hv : jsonLookup je "expenses" = some v) (hv0 : jsTruthy v = false)
    (hw : jsonLookup jd "dashboard" = some w) (hw0 : jsTruthy w = false) :
    fetchExpenses none none none (.response s (some je)) = .ok (.arr []) ∧
    fetchDashboard (.completed (.response s (some jd))) = .ok jd := by
  constructor
  · simp [fetchExpenses, hok, unwrapExpenses, hv, hv0]
  · simp [fetchDashboard, hok, unwrapDashboard, hw, hw0]

/-- Witness for C10: an explicitly `null` `expenses` field and a `0`-valued
`dashboard` field behave like absent fields. -/
theorem envelope_falsy_fallback_witness :
    responseOk 200 = true ∧
    fetchExpenses none none none
        (.response 200 (some (Json.obj [("expenses", Json.null)]))) =
      .ok (.arr []) ∧
    fetchDashboard
        (.completed (.response 200 (some (Json.obj [("dashboard", Json.num 0)])))) =
      .ok (Json.obj [("dashboard", Json.num 0)]) := by
  have h := envelope_falsy_fallback
    (Json.obj [("expenses", Json.null)]) (Json.obj [("dashboard", Json.num 0)])
    Json.null (Json.num 0) 200 (by decide) rfl rfl rfl (by decide)
  exact ⟨by decide, h.1, h.2⟩
